import Mathlib

/-!
Shallow embedding of the OAuth authorization-code test harness
(`src/test-tools/src/main.js`): the UI state touched by the handlers,
the provider-callback handler `handleCodeResponse`, the Google-login
click handler, the backend-exchange click handler, and the clipboard
copy helpers.  External interactions (alert dialogs, SDK calls, the
fetch request, clipboard writes) are recorded as an `Effect` list;
the asynchronous provider callback and the fetch outcome are supplied
as explicit parameters, matching the spec's mocked-SDK test setup.
JavaScript string truthiness (empty string is falsy) is modelled
explicitly wherever the source relies on it (`!clientId`, `!code`,
`a || b` fallback chains).
-/

/-- The mutable DOM state read and written by the handlers in `main.js`:
the status bar (`statusBar.className` and `statusText.textContent`),
the code display (`codeSection.style.display`, `authCode.textContent`)
and the token display (`tokenSection.style.display`,
`accessToken.textContent`, `refreshToken.textContent`).
Visibility is modelled as a Bool (`display: block` vs hidden). -/
structure UIState where
  statusClass : String
  statusText : String
  codeSectionVisible : Bool
  authCodeText : String
  tokenSectionVisible : Bool
  accessTokenText : String
  refreshTokenText : String
  deriving Repr, DecidableEq

/-- Observable side effects of the handlers: alert dialogs, provider-SDK
interactions, the backend fetch, and clipboard writes with their visual
acknowledgments. -/
inductive Effect where
  | alert (msg : String)
  | initCodeClient (clientId : String)
  | requestCode
  | fetchLogin (code : String)
  | clipboardWrite (text : String)
  | copyBtnAck
  | blockAck
  deriving Repr, DecidableEq

/-- `setStatus(type, message)` from `main.js`: writes
`statusBar.className = 'status ' + type` and
`statusText.textContent = message`. -/
def setStatus (type msg : String) (s : UIState) : UIState :=
  { s with statusClass := "status " ++ type, statusText := msg }

/-- Provider callback payload `{ code?: string, error?: string }`;
`none` models an absent (undefined) field. -/
structure CodeResponse where
  error : Option String
  code : Option String
  deriving Repr, DecidableEq

/-- JavaScript truthiness of an optional string field: absent
(undefined) and the empty string are falsy. -/
def truthy : Option String → Bool
  | none => false
  | some s => if s = "" then false else true

/-- JavaScript `v || fallback` on an optional string field: yields the
field's value when it is present and non-empty, the fallback otherwise. -/
def jsOr (v : Option String) (fallback : String) : String :=
  match v with
  | none => fallback
  | some s => if s = "" then fallback else s

/-- `handleCodeResponse(response)` from `main.js`: on a truthy `error`,
set status to error with `發生錯誤: <error>`; otherwise on a truthy
`code`, reveal the code section, store the code in `authCode` and set
status to success; otherwise do nothing. -/
def handleCodeResponse (resp : CodeResponse) (s : UIState) : UIState :=
  if truthy resp.error then
    setStatus "error" ("發生錯誤: " ++ resp.error.getD "") s
  else if truthy resp.code then
    let s1 := { s with codeSectionVisible := true,
                       authCodeText := resp.code.getD "" }
    setStatus "success" "成功獲取 Authorization Code！" s1
  else s

/-- JavaScript `String.prototype.trim()`: strips leading and trailing
whitespace, modelled on the string's character list. -/
def jsTrim (s : String) : String :=
  ⟨((s.data.dropWhile Char.isWhitespace).reverse.dropWhile
      Char.isWhitespace).reverse⟩

/-- Behaviour of the provider SDK as seen by the click handler: whether
the `google` global is loaded, whether `initCodeClient` or
`requestCode` throw synchronously (with the thrown message), and the
payload the (mocked, immediately invoked) callback delivers. -/
structure MockSdk where
  loaded : Bool
  initThrows : Option String
  requestThrows : Option String
  callbackPayload : Option CodeResponse
  deriving Repr, DecidableEq

/-- The `googleLoginBtn` click handler from `main.js`, with the SDK
mocked to deliver its callback synchronously: trim the client-id input;
if empty, alert and return (no SDK interaction, no status change); if
the SDK global is missing, alert and return; otherwise construct the
code client, set status to pending, and call `requestCode`; a synchronous
throw from construction or the request is caught and surfaced as
`初始化失敗: <message>`; the callback payload, when one arrives, is
processed by `handleCodeResponse`. -/
def googleLoginClick (clientIdVal : String) (sdk : MockSdk) (s : UIState) :
    UIState × List Effect :=
  let clientId := jsTrim clientIdVal
  if clientId = "" then
    (s, [Effect.alert "請先輸入 Google Client ID"])
  else if sdk.loaded = false then
    (s, [Effect.alert "Google GIS SDK 尚未載入，請稍候或檢查網路連線"])
  else
    match sdk.initThrows with
    | some m => (setStatus "error" ("初始化失敗: " ++ m) s,
                 [Effect.initCodeClient clientId])
    | none =>
      let s1 := setStatus "pending" "正在開啟 Google 授權視窗..." s
      match sdk.requestThrows with
      | some m => (setStatus "error" ("初始化失敗: " ++ m) s1,
                   [Effect.initCodeClient clientId, Effect.requestCode])
      | none =>
        match sdk.callbackPayload with
        | some p => (handleCodeResponse p s1,
                     [Effect.initCodeClient clientId, Effect.requestCode])
        | none => (s1, [Effect.initCodeClient clientId, Effect.requestCode])

/-- Backend response body
`{ access_token?, access?, refresh_token?, refresh?, detail?, ... }`;
`none` models an absent field. -/
structure LoginBody where
  access_token : Option String
  access : Option String
  refresh_token : Option String
  refresh : Option String
  detail : Option String
  deriving Repr, DecidableEq

/-- Outcome of the `fetch` to `/api/v1/users/login/google/` as seen by
the handler: the request itself rejected (`networkFailure`), a response
arrived but `response.json()` rejected (`parseFailure`, with the
response's `ok` flag), or a response arrived and parsed
(`response` with its `ok` flag, `statusText` and body). -/
inductive FetchOutcome where
  | networkFailure (msg : String)
  | parseFailure (ok : Bool) (msg : String)
  | response (ok : Bool) (statusText : String) (body : LoginBody)
  deriving Repr, DecidableEq

/-- The `backendLoginBtn` click handler from `main.js`: read the
displayed code; if falsy (empty), return without any effect; otherwise
set status to pending, issue the fetch, parse the body as JSON
regardless of HTTP status, and then: on `response.ok` set status to
success, reveal the token section with
`data.access_token || data.access || 'N/A'` and
`data.refresh_token || data.refresh || 'N/A'`, and alert that login
succeeded; on a non-ok response set status to error with
`後端登入失敗: ` followed by `data.detail || response.statusText`; a
rejected fetch or a rejected JSON parse is caught and surfaced as
`連線失敗: <message>`. -/
def backendLoginClick (outcome : FetchOutcome) (s : UIState) :
    UIState × List Effect :=
  let code := s.authCodeText
  if code = "" then (s, [])
  else
    let s1 := setStatus "pending" "正在嘗試登入後端..." s
    match outcome with
    | FetchOutcome.networkFailure m =>
        (setStatus "error" ("連線失敗: " ++ m) s1, [Effect.fetchLogin code])
    | FetchOutcome.parseFailure _ m =>
        (setStatus "error" ("連線失敗: " ++ m) s1, [Effect.fetchLogin code])
    | FetchOutcome.response ok statusText body =>
        if ok then
          let s2 := setStatus "success" "後端登入成功！" s1
          let s3 := { s2 with
            tokenSectionVisible := true,
            accessTokenText := jsOr body.access_token (jsOr body.access "N/A"),
            refreshTokenText := jsOr body.refresh_token (jsOr body.refresh "N/A") }
          (s3, [Effect.fetchLogin code,
                Effect.alert "登入成功！Token 已顯示在下方，點擊區塊即可複製。"])
        else
          (setStatus "error" ("後端登入失敗: " ++ jsOr body.detail statusText) s1,
           [Effect.fetchLogin code])

/-- The `copyBtn` click handler from `main.js`: unconditionally writes
`authCode.textContent` to the clipboard; when the write resolves, shows
the transient `✅ 已複製！` acknowledgment on the button. -/
def copyBtnClick (s : UIState) (writeResolves : Bool) : List Effect :=
  Effect.clipboardWrite s.authCodeText ::
    (if writeResolves then [Effect.copyBtnAck] else [])

/-- `copyToClipboard(element)` from `main.js`, used by the three
block-click handlers (`copyCodeBlock`, `accessTokenBlock`,
`refreshTokenBlock`): no-op when the element's text is falsy (empty) or
equals `'N/A'`; otherwise writes the text to the clipboard and, when the
write resolves, flashes the parent block's background. -/
def copyToClipboard (text : String) (writeResolves : Bool) : List Effect :=
  if text = "" ∨ text = "N/A" then []
  else Effect.clipboardWrite text ::
    (if writeResolves then [Effect.blockAck] else [])

/-- A concrete page state before any interaction: idle status, empty
displays, both sections hidden. -/
def initialState : UIState :=
  { statusClass := "status idle"
    statusText := ""
    codeSectionVisible := false
    authCodeText := ""
    tokenSectionVisible := false
    accessTokenText := ""
    refreshTokenText := "" }

/-- An SDK that is loaded, throws nowhere, and delivers no callback;
used to instantiate universally quantified SDK parameters. -/
def quietSdk : MockSdk :=
  { loaded := true
    initThrows := none
    requestThrows := none
    callbackPayload := none }

lemma jsOr_some (a fb : String) (ha : a ≠ "") : jsOr (some a) fb = a := by
  simp [jsOr, ha]

lemma jsOr_falsy (v : Option String) (fb : String)
    (h : v = none ∨ v = some "") : jsOr v fb = fb := by
  rcases h with h | h <;> simp [jsOr, h]

lemma jsOr_ne_empty (v : Option String) (fb : String) (hfb : fb ≠ "") :
    jsOr v fb ≠ "" := by
  match v with
  | none => simpa [jsOr] using hfb
  | some a =>
    by_cases ha : a = "" <;> simp [jsOr, ha, hfb]

lemma backendOk_visible (st : String) (body : LoginBody) (s : UIState)
    (h : s.authCodeText ≠ "") :
    (backendLoginClick (FetchOutcome.response true st body) s).1.tokenSectionVisible
      = true := by
  simp [backendLoginClick, setStatus, h]

lemma backendOk_statusClass (st : String) (body : LoginBody) (s : UIState)
    (h : s.authCodeText ≠ "") :
    (backendLoginClick (FetchOutcome.response true st body) s).1.statusClass
      = "status success" := by
  simp [backendLoginClick, setStatus, h]

lemma backendOk_access (st : String) (body : LoginBody) (s : UIState)
    (h : s.authCodeText ≠ "") :
    (backendLoginClick (FetchOutcome.response true st body) s).1.accessTokenText
      = jsOr body.access_token (jsOr body.access "N/A") := by
  simp [backendLoginClick, setStatus, h]

lemma backendOk_refresh (st : String) (body : LoginBody) (s : UIState)
    (h : s.authCodeText ≠ "") :
    (backendLoginClick (FetchOutcome.response true st body) s).1.refreshTokenText
      = jsOr body.refresh_token (jsOr body.refresh "N/A") := by
  simp [backendLoginClick, setStatus, h]

lemma backendErr_statusClass (st : String) (body : LoginBody) (s : UIState)
    (h : s.authCodeText ≠ "") :
    (backendLoginClick (FetchOutcome.response false st body) s).1.statusClass
      = "status error" := by
  simp [backendLoginClick, setStatus, h]

lemma backendErr_statusText (st : String) (body : LoginBody) (s : UIState)
    (h : s.authCodeText ≠ "") :
    (backendLoginClick (FetchOutcome.response false st body) s).1.statusText
      = "後端登入失敗: " ++ jsOr body.detail st := by
  simp [backendLoginClick, setStatus, h]

lemma backendErr_visible (st : String) (body : LoginBody) (s : UIState)
    (h : s.authCodeText ≠ "") :
    (backendLoginClick (FetchOutcome.response false st body) s).1.tokenSectionVisible
      = s.tokenSectionVisible := by
  simp [backendLoginClick, setStatus, h]

/-- Claim C1: for every client id that is non-empty after trimming and a
provider SDK whose callback (delivered immediately, as in the spec's
mocked setup) carries a payload with a non-empty `code` and no `error`,
the click handler ends with the code section revealed, the displayed
code equal to that payload code, and a success status. -/
theorem authorization_success_reveals_code (cid X : String) (s : UIState)
    (hcid : jsTrim cid ≠ "") (hX : X ≠ "") :
    (googleLoginClick cid
        { loaded := true, initThrows := none, requestThrows := none,
          callbackPayload := some { error := none, code := some X } } s).1.codeSectionVisible
      = true ∧
    (googleLoginClick cid
        { loaded := true, initThrows := none, requestThrows := none,
          callbackPayload := some { error := none, code := some X } } s).1.authCodeText
      = X ∧
    (googleLoginClick cid
        { loaded := true, initThrows := none, requestThrows := none,
          callbackPayload := some { error := none, code := some X } } s).1.statusClass
      = "status success" := by
  refine ⟨?_, ?_, ?_⟩ <;>
    simp [googleLoginClick, handleCodeResponse, truthy, setStatus, hcid, hX]

/-- Witness for C1 at the concrete client id `my-client`, payload code
`X` and the initial page state. -/
theorem authorization_success_reveals_code_witness :
    (googleLoginClick "my-client"
        { loaded := true, initThrows := none, requestThrows := none,
          callbackPayload := some { error := none, code := some "X" } }
        initialState).1.codeSectionVisible = true ∧
    (googleLoginClick "my-client"
        { loaded := true, initThrows := none, requestThrows := none,
          callbackPayload := some { error := none, code := some "X" } }
        initialState).1.authCodeText = "X" ∧
    (googleLoginClick "my-client"
        { loaded := true, initThrows := none, requestThrows := none,
          callbackPayload := some { error := none, code := some "X" } }
        initialState).1.statusClass = "status success" :=
  authorization_success_reveals_code "my-client" "X" initialState
    (by decide) (by decide)

/-- Claim C3: for every provider callback payload carrying a non-empty
`error` (and no code), the status becomes the error severity with a
message containing the error string, and the code display is neither
revealed nor updated. -/
theorem provider_error_no_code (E : String) (s : UIState) (hE : E ≠ "") :
    (handleCodeResponse { error := some E, code := none } s).statusClass
      = "status error" ∧
    (∃ p, (handleCodeResponse { error := some E, code := none } s).statusText
      = p ++ E) ∧
    (handleCodeResponse { error := some E, code := none } s).codeSectionVisible
      = s.codeSectionVisible ∧
    (handleCodeResponse { error := some E, code := none } s).authCodeText
      = s.authCodeText := by
  refine ⟨?_, ⟨"發生錯誤: ", ?_⟩, ?_, ?_⟩ <;>
    simp [handleCodeResponse, truthy, setStatus, hE]

/-- Witness for C3 at the concrete error string `denied` and the initial
page state. -/
theorem provider_error_no_code_witness :
    (handleCodeResponse { error := some "denied", code := none }
        initialState).statusClass = "status error" ∧
    (∃ p, (handleCodeResponse { error := some "denied", code := none }
        initialState).statusText = p ++ "denied") ∧
    (handleCodeResponse { error := some "denied", code := none }
        initialState).codeSectionVisible = initialState.codeSectionVisible ∧
    (handleCodeResponse { error := some "denied", code := none }
        initialState).authCodeText = initialState.authCodeText :=
  provider_error_no_code "denied" initialState (by decide)

/-- Claim C9: when a provider callback payload carries both a non-empty
`error` and a non-empty `code`, the error branch wins: the status is the
error message, and the code display is neither revealed nor updated with
the code. -/
theorem provider_error_precedence (E c : String) (s : UIState)
    (hE : E ≠ "") (_hc : c ≠ "") :
    (handleCodeResponse { error := some E, code := some c } s).statusClass
      = "status error" ∧
    (handleCodeResponse { error := some E, code := some c } s).statusText
      = "發生錯誤: " ++ E ∧
    (handleCodeResponse { error := some E, code := some c } s).codeSectionVisible
      = s.codeSectionVisible ∧
    (handleCodeResponse { error := some E, code := some c } s).authCodeText
      = s.authCodeText := by
  refine ⟨?_, ?_, ?_, ?_⟩ <;>
    simp [handleCodeResponse, truthy, setStatus, hE]

/-- Witness for C9 at the concrete payload carrying both
`error = denied` and `code = abc`. -/
theorem provider_error_precedence_witness :
    (handleCodeResponse { error := some "denied", code := some "abc" }
        initialState).statusClass = "status error" ∧
    (handleCodeResponse { error := some "denied", code := some "abc" }
        initialState).statusText = "發生錯誤: " ++ "denied" ∧
    (handleCodeResponse { error := some "denied", code := some "abc" }
        initialState).codeSectionVisible = initialState.codeSectionVisible ∧
    (handleCodeResponse { error := some "denied", code := some "abc" }
        initialState).authCodeText = initialState.authCodeText :=
  provider_error_precedence "denied" "abc" initialState (by decide) (by decide)

/-- Counterexample to claim C5 as stated: with a whitespace-only client
id, the handler leaves the page state — including the Status Reporter —
completely unchanged, surfacing the failure only through an alert
dialog; the status bar still shows the idle class and an empty message,
so the failure is not surfaced via the Status Reporter. -/
theorem missing_client_id_counterexample :
    googleLoginClick "   " quietSdk initialState
      = (initialState, [Effect.alert "請先輸入 Google Client ID"]) ∧
    (googleLoginClick "   " quietSdk initialState).1.statusClass
      = "status idle" ∧
    (googleLoginClick "   " quietSdk initialState).1.statusClass
      ≠ "status error" ∧
    (googleLoginClick "   " quietSdk initialState).1.statusText = "" := by
  refine ⟨?_, ?_, ?_, ?_⟩ <;> decide

/-- Claim C5 (amended): for every client id that is empty or
whitespace-only after trimming, the click handler returns immediately
with only an alert dialog: no provider client is constructed, no code
request is issued, and the page state — the Status Reporter included —
is left unchanged. -/
theorem missing_client_id_noop (cid : String) (sdk : MockSdk) (s : UIState)
    (h : jsTrim cid = "") :
    googleLoginClick cid sdk s
      = (s, [Effect.alert "請先輸入 Google Client ID"]) := by
  simp [googleLoginClick, h]

/-- Witness for the amended C5 at the concrete whitespace client id. -/
theorem missing_client_id_noop_witness :
    googleLoginClick "  " quietSdk initialState
      = (initialState, [Effect.alert "請先輸入 Google Client ID"]) :=
  missing_client_id_noop "  " quietSdk initialState (by decide)

/-- Claim C7: whenever the displayed authorization code is empty, the
backend-exchange click handler is a no-op: no fetch is issued and the
state (status severity and message included) is completely unchanged,
whatever the network would have answered. -/
theorem empty_code_exchange_noop (outcome : FetchOutcome) (s : UIState)
    (h : s.authCodeText = "") :
    backendLoginClick outcome s = (s, []) := by
  simp [backendLoginClick, h]

/-- Witness for C7 at the initial page state and an arbitrary concrete
fetch outcome. -/
theorem empty_code_exchange_noop_witness :
    backendLoginClick (FetchOutcome.networkFailure "refused") initialState
      = (initialState, []) :=
  empty_code_exchange_noop (FetchOutcome.networkFailure "refused")
    initialState (by decide)

/-- A concrete page state in which an authorization code is displayed,
as after a successful provider callback. -/
def stateWithCode : UIState :=
  { initialState with codeSectionVisible := true, authCodeText := "code-1" }

/-- Claim C2: on any 2xx backend response, the token section is
revealed, status becomes success, and the displayed tokens follow the
fallback chains `access_token`, then `access`, then `N/A` and
`refresh_token`, then `refresh`, then `N/A`, a present-but-empty field
counting as absent (the chains use JavaScript truthiness, cf. C10). -/
theorem exchange_success_tokens (body : LoginBody) (st : String)
    (s : UIState) (h : s.authCodeText ≠ "") :
    (backendLoginClick (FetchOutcome.response true st body) s).1.tokenSectionVisible
      = true ∧
    (backendLoginClick (FetchOutcome.response true st body) s).1.statusClass
      = "status success" ∧
    (∀ a, body.access_token = some a → a ≠ "" →
      (backendLoginClick (FetchOutcome.response true st body) s).1.accessTokenText
        = a) ∧
    ((body.access_token = none ∨ body.access_token = some "") →
      ∀ a, body.access = some a → a ≠ "" →
        (backendLoginClick (FetchOutcome.response true st body) s).1.accessTokenText
          = a) ∧
    ((body.access_token = none ∨ body.access_token = some "") →
      (body.access = none ∨ body.access = some "") →
        (backendLoginClick (FetchOutcome.response true st body) s).1.accessTokenText
          = "N/A") ∧
    (∀ r, body.refresh_token = some r → r ≠ "" →
      (backendLoginClick (FetchOutcome.response true st body) s).1.refreshTokenText
        = r) ∧
    ((body.refresh_token = none ∨ body.refresh_token = some "") →
      ∀ r, body.refresh = some r → r ≠ "" →
        (backendLoginClick (FetchOutcome.response true st body) s).1.refreshTokenText
          = r) ∧
    ((body.refresh_token = none ∨ body.refresh_token = some "") →
      (body.refresh = none ∨ body.refresh = some "") →
        (backendLoginClick (FetchOutcome.response true st body) s).1.refreshTokenText
          = "N/A") := by
  refine ⟨backendOk_visible st body s h, backendOk_statusClass st body s h,
    ?_, ?_, ?_, ?_, ?_, ?_⟩
  · intro a ha hne
    rw [backendOk_access st body s h, ha, jsOr_some a _ hne]
  · intro hat a ha hne
    rw [backendOk_access st body s h, jsOr_falsy _ _ hat, ha,
      jsOr_some a _ hne]
  · intro hat hac
    rw [backendOk_access st body s h, jsOr_falsy _ _ hat, jsOr_falsy _ _ hac]
  · intro r hr hne
    rw [backendOk_refresh st body s h, hr, jsOr_some r _ hne]
  · intro hrt r hr hne
    rw [backendOk_refresh st body s h, jsOr_falsy _ _ hrt, hr,
      jsOr_some r _ hne]
  · intro hrt hrf
    rw [backendOk_refresh st body s h, jsOr_falsy _ _ hrt, jsOr_falsy _ _ hrf]

/-- Witness for C2 at the concrete body `{access_token: "A", refresh:
"R"}`: the displayed pair is `("A", "R")`, the token section is
revealed, and the status is success. -/
theorem exchange_success_tokens_witness :
    (backendLoginClick
        (FetchOutcome.response true "OK"
          { access_token := some "A", access := none, refresh_token := none,
            refresh := some "R", detail := none })
        stateWithCode).1.accessTokenText = "A" ∧
    (backendLoginClick
        (FetchOutcome.response true "OK"
          { access_token := some "A", access := none, refresh_token := none,
            refresh := some "R", detail := none })
        stateWithCode).1.refreshTokenText = "R" ∧
    (backendLoginClick
        (FetchOutcome.response true "OK"
          { access_token := some "A", access := none, refresh_token := none,
            refresh := some "R", detail := none })
        stateWithCode).1.tokenSectionVisible = true ∧
    (backendLoginClick
        (FetchOutcome.response true "OK"
          { access_token := some "A", access := none, refresh_token := none,
            refresh := some "R", detail := none })
        stateWithCode).1.statusClass = "status success" := by
  obtain ⟨h1, h2, h3, _, _, _, h7, _⟩ :=
    exchange_success_tokens
      { access_token := some "A", access := none, refresh_token := none,
        refresh := some "R", detail := none } "OK" stateWithCode (by decide)
  exact ⟨h3 "A" rfl (by decide), h7 (Or.inl rfl) "R" rfl (by decide), h1, h2⟩

/-- Claim C4: on any non-ok backend response, status becomes error with
the message `後端登入失敗: ` followed by the body's `detail` when it is
present and non-empty, otherwise by the HTTP status text (the source
selects with JavaScript truthiness); the token section is not revealed. -/
theorem exchange_failure_detail (body : LoginBody) (st : String)
    (s : UIState) (h : s.authCodeText ≠ "") :
    (backendLoginClick (FetchOutcome.response false st body) s).1.statusClass
      = "status error" ∧
    (∀ d, body.detail = some d → d ≠ "" →
      (backendLoginClick (FetchOutcome.response false st body) s).1.statusText
        = "後端登入失敗: " ++ d) ∧
    ((body.detail = none ∨ body.detail = some "") →
      (backendLoginClick (FetchOutcome.response false st body) s).1.statusText
        = "後端登入失敗: " ++ st) ∧
    (backendLoginClick (FetchOutcome.response false st body) s).1.tokenSectionVisible
      = s.tokenSectionVisible := by
  refine ⟨backendErr_statusClass st body s h, ?_, ?_,
    backendErr_visible st body s h⟩
  · intro d hd hne
    rw [backendErr_statusText st body s h, hd, jsOr_some d _ hne]
  · intro hd
    rw [backendErr_statusText st body s h, jsOr_falsy _ _ hd]

/-- Witness for C4 at the concrete response `HTTP 400` with body
`{detail: "bad code"}`: the message is exactly `後端登入失敗: bad code`
and the token section stays hidden. -/
theorem exchange_failure_detail_witness :
    (backendLoginClick
        (FetchOutcome.response false "Bad Request"
          { access_token := none, access := none, refresh_token := none,
            refresh := none, detail := some "bad code" })
        stateWithCode).1.statusClass = "status error" ∧
    (backendLoginClick
        (FetchOutcome.response false "Bad Request"
          { access_token := none, access := none, refresh_token := none,
            refresh := none, detail := some "bad code" })
        stateWithCode).1.statusText = "後端登入失敗: bad code" ∧
    (backendLoginClick
        (FetchOutcome.response false "Bad Request"
          { access_token := none, access := none, refresh_token := none,
            refresh := none, detail := some "bad code" })
        stateWithCode).1.tokenSectionVisible
      = stateWithCode.tokenSectionVisible := by
  obtain ⟨h1, h2, _, h4⟩ :=
    exchange_failure_detail
      { access_token := none, access := none, refresh_token := none,
        refresh := none, detail := some "bad code" } "Bad Request"
      stateWithCode (by decide)
  exact ⟨h1, h2 "bad code" rfl (by decide), h4⟩

/-- Claim C6: a rejected fetch yields an error status whose message
carries the transport error's message after the connectivity prefix, and
the token section is not revealed; a body that fails to parse as JSON is
handled identically — in particular identically for ok and non-ok HTTP
statuses, since the body is parsed regardless of HTTP status. -/
theorem exchange_transport_failure (m : String) (ok : Bool) (s : UIState)
    (h : s.authCodeText ≠ "") :
    (backendLoginClick (FetchOutcome.networkFailure m) s).1.statusClass
      = "status error" ∧
    (∃ p, (backendLoginClick (FetchOutcome.networkFailure m) s).1.statusText
      = p ++ m) ∧
    (backendLoginClick (FetchOutcome.networkFailure m) s).1.tokenSectionVisible
      = s.tokenSectionVisible ∧
    backendLoginClick (FetchOutcome.parseFailure ok m) s
      = backendLoginClick (FetchOutcome.networkFailure m) s := by
  refine ⟨?_, ⟨"連線失敗: ", ?_⟩, ?_, ?_⟩ <;>
    simp [backendLoginClick, setStatus, h]

/-- Witness for C6 at the concrete transport error message
`Failed to fetch` on a non-ok response. -/
theorem exchange_transport_failure_witness :
    (backendLoginClick (FetchOutcome.networkFailure "Failed to fetch")
        stateWithCode).1.statusClass = "status error" ∧
    (∃ p, (backendLoginClick (FetchOutcome.networkFailure "Failed to fetch")
        stateWithCode).1.statusText = p ++ "Failed to fetch") ∧
    (backendLoginClick (FetchOutcome.networkFailure "Failed to fetch")
        stateWithCode).1.tokenSectionVisible
      = stateWithCode.tokenSectionVisible ∧
    backendLoginClick (FetchOutcome.parseFailure false "Failed to fetch")
        stateWithCode
      = backendLoginClick (FetchOutcome.networkFailure "Failed to fetch")
        stateWithCode :=
  exchange_transport_failure "Failed to fetch" false stateWithCode (by decide)

/-- Claim C10: on any 2xx backend response, a token field that is
present but empty behaves exactly as an absent one: erasing an empty
`access_token` (resp. `refresh_token`) does not change the displayed
value, a fallback chain whose members are all absent or empty displays
`N/A`, and the displayed token texts are never the empty string. -/
theorem empty_token_field_is_absent (body : LoginBody) (st : String)
    (s : UIState) (h : s.authCodeText ≠ "") :
    (backendLoginClick (FetchOutcome.response true st body) s).1.accessTokenText
      ≠ "" ∧
    (backendLoginClick (FetchOutcome.response true st body) s).1.refreshTokenText
      ≠ "" ∧
    (body.access_token = some "" →
      (backendLoginClick (FetchOutcome.response true st body) s).1.accessTokenText
        = (backendLoginClick
            (FetchOutcome.response true st { body with access_token := none })
            s).1.accessTokenText) ∧
    (body.refresh_token = some "" →
      (backendLoginClick (FetchOutcome.response true st body) s).1.refreshTokenText
        = (backendLoginClick
            (FetchOutcome.response true st { body with refresh_token := none })
            s).1.refreshTokenText) ∧
    ((body.access_token = none ∨ body.access_token = some "") →
      (body.access = none ∨ body.access = some "") →
      (backendLoginClick (FetchOutcome.response true st body) s).1.accessTokenText
        = "N/A") ∧
    ((body.refresh_token = none ∨ body.refresh_token = some "") →
      (body.refresh = none ∨ body.refresh = some "") →
      (backendLoginClick (FetchOutcome.response true st body) s).1.refreshTokenText
        = "N/A") := by
  refine ⟨?_, ?_, ?_, ?_, ?_, ?_⟩
  · rw [backendOk_access st body s h]
    exact jsOr_ne_empty _ _ (jsOr_ne_empty _ _ (by decide))
  · rw [backendOk_refresh st body s h]
    exact jsOr_ne_empty _ _ (jsOr_ne_empty _ _ (by decide))
  · intro hat
    rw [backendOk_access st body s h, backendOk_access st _ s h,
      jsOr_falsy _ _ (Or.inr hat)]
    exact (jsOr_falsy _ _ (Or.inl rfl)).symm
  · intro hrt
    rw [backendOk_refresh st body s h, backendOk_refresh st _ s h,
      jsOr_falsy _ _ (Or.inr hrt)]
    exact (jsOr_falsy _ _ (Or.inl rfl)).symm
  · intro hat hac
    rw [backendOk_access st body s h, jsOr_falsy _ _ hat, jsOr_falsy _ _ hac]
  · intro hrt hrf
    rw [backendOk_refresh st body s h, jsOr_falsy _ _ hrt, jsOr_falsy _ _ hrf]

/-- Witness for C10 at the concrete body whose `access_token` is the
empty string and whose `refresh` fields are empty or absent: the
displayed pair is the fallback `access` value and `N/A`. -/
theorem empty_token_field_is_absent_witness :
    (backendLoginClick
        (FetchOutcome.response true "OK"
          { access_token := some "", access := some "B",
            refresh_token := some "", refresh := none, detail := none })
        stateWithCode).1.accessTokenText ≠ "" ∧
    (backendLoginClick
        (FetchOutcome.response true "OK"
          { access_token := some "", access := some "B",
            refresh_token := some "", refresh := none, detail := none })
        stateWithCode).1.accessTokenText
      = (backendLoginClick
          (FetchOutcome.response true "OK"
            { access_token := none, access := some "B",
              refresh_token := some "", refresh := none, detail := none })
          stateWithCode).1.accessTokenText ∧
    (backendLoginClick
        (FetchOutcome.response true "OK"
          { access_token := some "", access := some "B",
            refresh_token := some "", refresh := none, detail := none })
        stateWithCode).1.refreshTokenText = "N/A" := by
  obtain ⟨h1, _, h3, _, _, h6⟩ :=
    empty_token_field_is_absent
      { access_token := some "", access := some "B",
        refresh_token := some "", refresh := none, detail := none }
      "OK" stateWithCode (by decide)
  exact ⟨h1, h3 rfl, h6 (Or.inr rfl) (Or.inl rfl)⟩

/-- Counterexample to claim C8 as stated: the primary copy button's
handler has no empty-text guard; clicked while the displayed
authorization code is the empty string, it writes that empty string to
the clipboard and triggers the button's visual acknowledgment. -/
theorem copy_button_empty_counterexample :
    copyBtnClick initialState true
      = [Effect.clipboardWrite "", Effect.copyBtnAck] := by
  decide

/-- Claim C8 (amended): the shared block-click copy utility — used for
the authorization code, access token and refresh token blocks — is a
no-op on empty or `N/A` text: no clipboard write occurs and no visual
acknowledgment is triggered; the primary copy button, by contrast,
writes unconditionally. -/
theorem copy_block_guard (text : String) (writeResolves : Bool)
    (h : text = "" ∨ text = "N/A") :
    copyToClipboard text writeResolves = [] := by
  rcases h with h | h <;> simp [copyToClipboard, h]

/-- Witness for the amended C8 at the concrete sentinel text `N/A`. -/
theorem copy_block_guard_witness : copyToClipboard "N/A" true = [] :=
  copy_block_guard "N/A" true (Or.inr rfl)
